import Mathlib

/-!
Verification of the `multi_market_loader` module (class `IndianMarketDataLoader`).

The module downloads daily OHLCV bars for one Indian instrument from an external
market-data provider, lowercases the column names, checks non-emptiness and the
presence of the five required columns, and returns the five-column frame.

The external provider (`yf.Ticker(symbol).history(start, end)`) is modelled as a
function from the provider symbol and the two date strings to either an error
message or a raw data frame.  A pandas `DataFrame` is modelled as a list of
column names together with rows, each row keyed by its date (a natural number
standing for the timestamp) and carrying one value per column.  Printed output
is modelled as a log of strings returned alongside the result; a raised
exception is modelled as the `Except.error` case.
-/

namespace MultiMarketLoader

/-- Per-character lowercasing, modelling Python `str.lower` as applied to the
provider's column names. -/
def lowerStr (s : String) : String := String.mk (s.data.map Char.toLower)

/-- A pandas data frame as used by the loader: named columns, and rows each
keyed by a trading date and carrying one value per column (in column order). -/
structure DataFrame where
  columns : List String
  rows : List (Nat × List Int)
deriving Repr, DecidableEq

/-- pandas `DataFrame.empty`: true when either axis has length zero. -/
def DataFrame.isEmpty (df : DataFrame) : Bool :=
  df.rows.isEmpty || df.columns.isEmpty

/-- The date index of the frame, in row order. -/
def DataFrame.index (df : DataFrame) : List Nat := df.rows.map Prod.fst

/-- Models `data.columns = [col.lower() for col in data.columns]`. -/
def DataFrame.lowercaseColumns (df : DataFrame) : DataFrame :=
  ⟨df.columns.map lowerStr, df.rows⟩

/-- pandas label-based column selection `data[cols]`: each requested label
selects every column carrying that label, in original column order (with
duplicate labels, all duplicates are kept). -/
def DataFrame.select (df : DataFrame) (cols : List String) : DataFrame :=
  ⟨cols.flatMap (fun c => df.columns.filter (fun x => x == c)),
   df.rows.map (fun r =>
     (r.1, cols.flatMap (fun c =>
       ((df.columns.zip r.2).filter (fun q => q.1 == c)).map Prod.snd)))⟩

/-- The error taxonomy of `download_market_data`: the two `ValueError`s raised
in the try-block (distinguished by their raise site) and an exception escaping
the provider call itself.  Each carries the human-readable message. -/
inductive FetchError where
  | emptyResult (msg : String)
  | missingField (msg : String)
  | provider (msg : String)
deriving Repr, DecidableEq

/-- The human-readable message (`str(e)` in Python) of an error. -/
def FetchError.message : FetchError → String
  | FetchError.emptyResult m => m
  | FetchError.missingField m => m
  | FetchError.provider m => m

/-- The external market-data provider: from a provider symbol, a start date and
an end date to either an error message or a raw data frame. -/
abbrev Provider := String → String → String → Except String DataFrame

/-- The class attribute `INDIAN_MARKET`, mapping supported short codes to
provider symbols. -/
def INDIAN_MARKET : List (String × String) := [("IRFC", "IRFC.NS")]

/-- `required_cols` from the source. -/
def required_cols : List String := ["open", "high", "low", "close", "volume"]

/-- The warning printed when an unsupported code is substituted. -/
def warnMsg (market_code : String) : String :=
  "Warning: Only IRFC (Indian) market supported. Using IRFC instead of " ++ market_code

/-- The market code actually used after the unsupported-code fallback
(`if market_code not in self.INDIAN_MARKET: market_code = "IRFC"`). -/
def resolveCode (market_code : String) : String :=
  if (INDIAN_MARKET.lookup market_code).isSome then market_code else "IRFC"

/-- `symbol = self.INDIAN_MARKET[market_code]` after resolution. -/
def resolveSymbol (market_code : String) : String :=
  (INDIAN_MARKET.lookup (resolveCode market_code)).getD ""

/-- The body of the `try:` block of `download_market_data`: call the provider,
fail on an empty frame, lowercase the columns, fail when a required column is
missing, otherwise print the row count and return the five selected columns.
The first component is the log printed inside the block. -/
def tryBody (p : Provider) (market_code symbol start_date end_date : String) :
    List String × Except FetchError DataFrame :=
  match p symbol start_date end_date with
  | Except.error m => ([], Except.error (FetchError.provider m))
  | Except.ok data =>
    if data.isEmpty then
      ([], Except.error (FetchError.emptyResult
        ("No data found for " ++ market_code ++ " (" ++ symbol ++ ")")))
    else
      let data2 := data.lowercaseColumns
      if required_cols.all (fun col => data2.columns.contains col) then
        (["✓ Downloaded " ++ toString data2.rows.length ++ " samples for Indian market (IRFC)"],
         Except.ok (data2.select required_cols))
      else
        ([], Except.error (FetchError.missingField
          ("Missing required columns for " ++ market_code)))

/-- `IndianMarketDataLoader.download_market_data`: resolve the code (printing a
warning on fallback), print the progress notice, run the try-block; the
`except` clause prints the diagnostic and re-raises the same error unchanged. -/
def download_market_data (p : Provider) (market_code start_date end_date : String) :
    List String × Except FetchError DataFrame :=
  let wlog : List String :=
    if (INDIAN_MARKET.lookup market_code).isSome then [] else [warnMsg market_code]
  let code := resolveCode market_code
  let symbol := resolveSymbol market_code
  let dlog := wlog ++
    ["Downloading Indian market data (" ++ symbol ++ ") from " ++ start_date ++
      " to " ++ end_date ++ "..."]
  let body := tryBody p code symbol start_date end_date
  match body.2 with
  | Except.error err =>
      (dlog ++ body.1 ++ ["❌ Failed to download Indian market data: " ++ err.message],
       Except.error err)
  | Except.ok df => (dlog ++ body.1, Except.ok df)

/-- `IndianMarketDataLoader.download_indian_market`: print its own notice, then
delegate to `download_market_data` with the fixed code "IRFC". -/
def download_indian_market (p : Provider) (start_date end_date : String) :
    List String × Except FetchError DataFrame :=
  let r := download_market_data p "IRFC" start_date end_date
  (("Downloading Indian market (IRFC - Indian Railway Finance Corporation) data from " ++
      start_date ++ " to " ++ end_date ++ "...") :: r.1, r.2)

/-- Default value of the `market_code` parameter of `download_market_data`. -/
def default_market_code : String := "IRFC"

/-- Default value of the `start_date` parameter of both entry points. -/
def default_start_date : String := "2005-01-01"

/-- Default value of the `end_date` parameter of both entry points. -/
def default_end_date : String := "2022-03-31"

/-- A call of `download_market_data` with every optional argument omitted. -/
def download_market_data_noargs (p : Provider) : List String × Except FetchError DataFrame :=
  download_market_data p default_market_code default_start_date default_end_date

/-- A call of `download_indian_market` with every optional argument omitted. -/
def download_indian_market_noargs (p : Provider) : List String × Except FetchError DataFrame :=
  download_indian_market p default_start_date default_end_date

/-- The descriptor returned for a supported instrument by `get_market_info`. -/
structure MarketInfo where
  name : String
  country : String
  symbol : String
  description : String
deriving Repr, DecidableEq

/-- `IndianMarketDataLoader.get_market_info`: the literal one-entry dictionary
returned by the source; the method takes no provider and reads no state. -/
def get_market_info : List (String × MarketInfo) :=
  [("IRFC",
    ⟨"Indian Railway Finance Corporation Limited", "India", "IRFC.NS",
     "IRFC - Indian Railway Finance Corporation - Indian Market Focus"⟩)]

end MultiMarketLoader

namespace MultiMarketLoader

/-- A list containing a label exactly once filters down to exactly that label. -/
theorem filter_eq_singleton_of_count_one (l : List String) (c : String)
    (h : l.count c = 1) : l.filter (fun x => x == c) = [c] := by
  have hlen : (l.filter (fun x => x == c)).length = 1 := by
    rw [← List.countP_eq_length_filter]
    exact h
  obtain ⟨x, hx⟩ := List.length_eq_one.mp hlen
  have hmem : x ∈ l.filter (fun x => x == c) := by
    rw [hx]
    exact List.mem_singleton_self x
  have hbeq := List.of_mem_filter hmem
  simp only [beq_iff_eq] at hbeq
  rw [hx, hbeq]

/-- Column selection keeps every row and its date key, so the date index of a
selected frame is that of the original frame. -/
theorem DataFrame.index_select (df : DataFrame) (cols : List String) :
    (df.select cols).index = df.index := by
  simp [DataFrame.select, DataFrame.index, List.map_map, Function.comp]

/-- Lowercasing column names leaves the rows, and hence the date index,
unchanged. -/
theorem DataFrame.index_lowercaseColumns (df : DataFrame) :
    df.lowercaseColumns.index = df.index := rfl

/-- Column selection maps the rows one-to-one, preserving the row count. -/
theorem DataFrame.length_rows_select (df : DataFrame) (cols : List String) :
    (df.select cols).rows.length = df.rows.length := by
  simp [DataFrame.select]

/-- When the provider call raises, the try-block yields that very provider
error and prints nothing. -/
theorem tryBody_eq_provider_error (p : Provider) (mc sym s e m : String)
    (hp : p sym s e = Except.error m) :
    tryBody p mc sym s e = ([], Except.error (FetchError.provider m)) := by
  simp only [tryBody, hp]

/-- When the provider returns an empty frame, the try-block raises the
empty-result error. -/
theorem tryBody_eq_empty (p : Provider) (mc sym s e : String) (raw : DataFrame)
    (hp : p sym s e = Except.ok raw) (hemp : raw.isEmpty = true) :
    tryBody p mc sym s e =
      ([], Except.error (FetchError.emptyResult
        ("No data found for " ++ mc ++ " (" ++ sym ++ ")"))) := by
  simp only [tryBody, hp]
  rw [hemp, if_pos rfl]

/-- When the provider returns a non-empty frame lacking a required column after
lowercasing, the try-block raises the missing-field error. -/
theorem tryBody_eq_missing (p : Provider) (mc sym s e : String) (raw : DataFrame)
    (hp : p sym s e = Except.ok raw) (hne : raw.isEmpty = false)
    (hall : (required_cols.all fun col => raw.lowercaseColumns.columns.contains col) = false) :
    tryBody p mc sym s e =
      ([], Except.error (FetchError.missingField
        ("Missing required columns for " ++ mc))) := by
  simp only [tryBody, hp]
  rw [hne, if_neg (by simp), hall, if_neg (by simp)]

/-- When the provider returns a non-empty frame holding every required column
after lowercasing, the try-block prints the row count and returns the selected
five-column frame. -/
theorem tryBody_eq_ok (p : Provider) (mc sym s e : String) (raw : DataFrame)
    (hp : p sym s e = Except.ok raw) (hne : raw.isEmpty = false)
    (hall : (required_cols.all fun col => raw.lowercaseColumns.columns.contains col) = true) :
    tryBody p mc sym s e =
      (["✓ Downloaded " ++ toString raw.lowercaseColumns.rows.length ++
          " samples for Indian market (IRFC)"],
       Except.ok (raw.lowercaseColumns.select required_cols)) := by
  simp only [tryBody, hp]
  rw [hne, if_neg (by simp), hall, if_pos rfl]

/-- The whole call, given that the try-block raised: the warning (when any) and
the progress notice, then the block's own log, then the diagnostic naming the
error's message; the error itself is re-raised unchanged. -/
theorem download_eq_of_error (p : Provider) (mc s e : String) (log : List String)
    (err : FetchError)
    (h : tryBody p (resolveCode mc) (resolveSymbol mc) s e = (log, Except.error err)) :
    download_market_data p mc s e =
      (((if (INDIAN_MARKET.lookup mc).isSome then [] else [warnMsg mc]) ++
          ["Downloading Indian market data (" ++ resolveSymbol mc ++ ") from " ++ s ++
            " to " ++ e ++ "..."]) ++
        (log ++ ["❌ Failed to download Indian market data: " ++ err.message]),
       Except.error err) := by
  simp only [download_market_data, h]
  simp [List.append_assoc]

/-- The whole call, given that the try-block succeeded: the warning (when any)
and the progress notice, then the block's own log, and the block's frame. -/
theorem download_eq_of_ok (p : Provider) (mc s e : String) (log : List String)
    (df : DataFrame)
    (h : tryBody p (resolveCode mc) (resolveSymbol mc) s e = (log, Except.ok df)) :
    download_market_data p mc s e =
      (((if (INDIAN_MARKET.lookup mc).isSome then [] else [warnMsg mc]) ++
          ["Downloading Indian market data (" ++ resolveSymbol mc ++ ") from " ++ s ++
            " to " ++ e ++ "..."]) ++ log,
       Except.ok df) := by
  simp only [download_market_data, h]

/-- Inversion of a successful call: the provider's frame passed both checks and
the returned frame is exactly its lowercased, five-column selection. -/
theorem download_ok_inv (p : Provider) (mc s e : String) (raw df : DataFrame)
    (hp : p (resolveSymbol mc) s e = Except.ok raw)
    (hok : (download_market_data p mc s e).2 = Except.ok df) :
    raw.isEmpty = false ∧
    (required_cols.all fun col => raw.lowercaseColumns.columns.contains col) = true ∧
    df = raw.lowercaseColumns.select required_cols := by
  by_cases hemp : raw.isEmpty = true
  · rw [download_eq_of_error p mc s e _ _
      (tryBody_eq_empty p (resolveCode mc) (resolveSymbol mc) s e raw hp hemp)] at hok
    simp at hok
  · have hne : raw.isEmpty = false := by simpa using hemp
    by_cases hall :
        (required_cols.all fun col => raw.lowercaseColumns.columns.contains col) = true
    · rw [download_eq_of_ok p mc s e _ _
        (tryBody_eq_ok p (resolveCode mc) (resolveSymbol mc) s e raw hp hne hall)] at hok
      simp only [Except.ok.injEq] at hok
      exact ⟨hne, hall, hok.symm⟩
    · have hallf :
          (required_cols.all fun col => raw.lowercaseColumns.columns.contains col) = false := by
        simpa using hall
      rw [download_eq_of_error p mc s e _ _
        (tryBody_eq_missing p (resolveCode mc) (resolveSymbol mc) s e raw hp hne hallf)] at hok
      simp at hok

/-- When each required column name occurs exactly once among the lowercased
column names, selection produces exactly the five required columns in order. -/
theorem columns_select_of_count_one (raw : DataFrame)
    (hcount : ∀ col ∈ required_cols, (raw.columns.map lowerStr).count col = 1) :
    (raw.lowercaseColumns.select required_cols).columns = required_cols := by
  have ho := filter_eq_singleton_of_count_one (raw.columns.map lowerStr) "open"
    (hcount "open" (by simp [required_cols]))
  have hh := filter_eq_singleton_of_count_one (raw.columns.map lowerStr) "high"
    (hcount "high" (by simp [required_cols]))
  have hlo := filter_eq_singleton_of_count_one (raw.columns.map lowerStr) "low"
    (hcount "low" (by simp [required_cols]))
  have hcl := filter_eq_singleton_of_count_one (raw.columns.map lowerStr) "close"
    (hcount "close" (by simp [required_cols]))
  have hv := filter_eq_singleton_of_count_one (raw.columns.map lowerStr) "volume"
    (hcount "volume" (by simp [required_cols]))
  show required_cols.flatMap (fun c => (raw.columns.map lowerStr).filter (fun x => x == c)) =
    required_cols
  rw [show required_cols = ["open", "high", "low", "close", "volume"] from rfl]
  simp [List.flatMap, ho, hh, hlo, hcl, hv]

end MultiMarketLoader

namespace MultiMarketLoader

/-- C1: a code outside the supported mapping does not make the call fail at
resolution: the call is the call made with the single default supported code
"IRFC" over the same date range, preceded by the warning notice naming the
unsupported code and the substituted code; in particular the provider is asked
for IRFC's data. -/
theorem claim_C1_unsupported_code_substitution (p : Provider)
    (market_code start_date end_date : String)
    (h : INDIAN_MARKET.lookup market_code = none) :
    download_market_data p market_code start_date end_date =
      (warnMsg market_code ::
        (download_market_data p "IRFC" start_date end_date).1,
       (download_market_data p "IRFC" start_date end_date).2) ∧
    (download_market_data p market_code start_date end_date).1.head? =
      some (warnMsg market_code) := by
  have hr : resolveCode market_code = "IRFC" := by simp [resolveCode, h]
  have hc2 : resolveCode "IRFC" = "IRFC" := rfl
  have hl2 : (INDIAN_MARKET.lookup "IRFC").isSome = true := rfl
  have hs : resolveSymbol market_code = resolveSymbol "IRFC" := by
    simp [resolveSymbol, hr, hc2]
  have hL : tryBody p (resolveCode market_code) (resolveSymbol market_code)
      start_date end_date =
      tryBody p (resolveCode "IRFC") (resolveSymbol "IRFC") start_date end_date := by
    rw [hr, hs, hc2]
  have hmain : download_market_data p market_code start_date end_date =
      (warnMsg market_code ::
        (download_market_data p "IRFC" start_date end_date).1,
       (download_market_data p "IRFC" start_date end_date).2) := by
    rcases ho : tryBody p (resolveCode "IRFC") (resolveSymbol "IRFC") start_date end_date
      with ⟨log, out⟩
    cases out with
    | error err =>
      rw [download_eq_of_error p market_code start_date end_date log err (hL.trans ho),
        download_eq_of_error p "IRFC" start_date end_date log err ho, hs]
      simp [h, hl2]
    | ok df =>
      rw [download_eq_of_ok p market_code start_date end_date log df (hL.trans ho),
        download_eq_of_ok p "IRFC" start_date end_date log df ho, hs]
      simp [h, hl2]
  refine ⟨hmain, ?_⟩
  rw [hmain]
  simp

/-- C1 witness: requesting the unsupported code "RELIANCE" against a failing
stub provider produces exactly the warning followed by the behaviour of the
"IRFC" call. -/
theorem claim_C1_witness :
    download_market_data (fun _ _ _ => Except.error "down") "RELIANCE"
        "2020-01-01" "2020-01-10" =
      ("Warning: Only IRFC (Indian) market supported. Using IRFC instead of RELIANCE" ::
        (download_market_data (fun _ _ _ => Except.error "down") "IRFC"
          "2020-01-01" "2020-01-10").1,
       (download_market_data (fun _ _ _ => Except.error "down") "IRFC"
          "2020-01-01" "2020-01-10").2) := by
  have h := claim_C1_unsupported_code_substitution (fun _ _ _ => Except.error "down")
    "RELIANCE" "2020-01-01" "2020-01-10" (by rfl)
  exact h.1.trans (by rfl)

/-- C2: a provider response with zero rows makes the call fail with the
empty-result error, whatever its columns are: the emptiness check precedes the
field-presence check, so a zero-row response lacking required fields still
gives the empty-result error, and no frame is returned. -/
theorem claim_C2_empty_result (p : Provider) (market_code start_date end_date : String)
    (raw : DataFrame)
    (hp : p (resolveSymbol market_code) start_date end_date = Except.ok raw)
    (hrows : raw.rows = []) :
    (download_market_data p market_code start_date end_date).2 =
      Except.error (FetchError.emptyResult
        ("No data found for " ++ resolveCode market_code ++ " (" ++
          resolveSymbol market_code ++ ")")) := by
  have hemp : raw.isEmpty = true := by simp [DataFrame.isEmpty, hrows]
  rw [download_eq_of_error p market_code start_date end_date _ _
    (tryBody_eq_empty p (resolveCode market_code) (resolveSymbol market_code)
      start_date end_date raw hp hemp)]

/-- C2 witness: a zero-row response that also lacks every required field still
yields the empty-result error, not the missing-field error. -/
theorem claim_C2_witness :
    (download_market_data (fun _ _ _ => Except.ok (⟨["Foo"], []⟩ : DataFrame))
        "IRFC" "2099-01-01" "2099-01-10").2 =
      Except.error (FetchError.emptyResult "No data found for IRFC (IRFC.NS)") := by
  have h := claim_C2_empty_result (fun _ _ _ => Except.ok (⟨["Foo"], []⟩ : DataFrame))
    "IRFC" "2099-01-01" "2099-01-10" ⟨["Foo"], []⟩ rfl rfl
  exact h.trans (by rfl)

/-- C3: a non-empty provider response that, after lowercasing, lacks at least
one of the five required fields makes the call fail with the missing-field
error, and no frame is returned. -/
theorem claim_C3_missing_field (p : Provider) (market_code start_date end_date : String)
    (raw : DataFrame)
    (hp : p (resolveSymbol market_code) start_date end_date = Except.ok raw)
    (hne : raw.isEmpty = false)
    (col : String) (hcol : col ∈ required_cols)
    (habs : col ∉ raw.columns.map lowerStr) :
    (download_market_data p market_code start_date end_date).2 =
      Except.error (FetchError.missingField
        ("Missing required columns for " ++ resolveCode market_code)) := by
  have hall :
      (required_cols.all fun c => raw.lowercaseColumns.columns.contains c) = false := by
    rw [Bool.eq_false_iff]
    intro htrue
    rw [List.all_eq_true] at htrue
    have hmem : col ∈ raw.lowercaseColumns.columns := by simpa using htrue col hcol
    exact habs hmem
  rw [download_eq_of_error p market_code start_date end_date _ _
    (tryBody_eq_missing p (resolveCode market_code) (resolveSymbol market_code)
      start_date end_date raw hp hne hall)]

/-- C3 witness: a one-row response with no Volume column fails with the
missing-field error. -/
theorem claim_C3_witness :
    (download_market_data
        (fun _ _ _ => Except.ok (⟨["Open", "High", "Low", "Close"],
          [(1, [1, 2, 3, 4])]⟩ : DataFrame)) "IRFC" "2020-01-01" "2020-01-10").2 =
      Except.error (FetchError.missingField "Missing required columns for IRFC") := by
  have h := claim_C3_missing_field
    (fun _ _ _ => Except.ok (⟨["Open", "High", "Low", "Close"],
      [(1, [1, 2, 3, 4])]⟩ : DataFrame)) "IRFC" "2020-01-01" "2020-01-10"
    ⟨["Open", "High", "Low", "Close"], [(1, [1, 2, 3, 4])]⟩ rfl rfl
    "volume" (by simp [required_cols]) (by decide)
  exact h.trans (by rfl)

end MultiMarketLoader

namespace MultiMarketLoader

/-- C4 as stated is false: pandas label selection keeps duplicate labels, so a
non-empty response whose lowercased columns include all five required fields
can still yield MORE than those five fields.  Here the provider supplies both
an Open and an OPEN column (lowercased column names contain every required
field, and the response has a row), yet the returned frame has six columns,
"open" twice — not exactly the five required fields. -/
theorem claim_C4_counterexample :
    (download_market_data
        (fun _ _ _ => Except.ok (⟨["Open", "OPEN", "High", "Low", "Close", "Volume"],
          [(1, [1, 2, 3, 4, 5, 6])]⟩ : DataFrame)) "IRFC" "2020-01-01" "2020-01-10").2 =
      Except.ok (⟨["open", "open", "high", "low", "close", "volume"],
        [(1, [1, 2, 3, 4, 5, 6])]⟩ : DataFrame) ∧
    (required_cols.all fun col =>
      ((⟨["Open", "OPEN", "High", "Low", "Close", "Volume"],
        [(1, [1, 2, 3, 4, 5, 6])]⟩ : DataFrame).columns.map lowerStr).contains col) = true ∧
    (⟨["Open", "OPEN", "High", "Low", "Close", "Volume"],
      [(1, [1, 2, 3, 4, 5, 6])]⟩ : DataFrame).rows ≠ [] ∧
    ["open", "open", "high", "low", "close", "volume"] ≠ required_cols := by
  refine ⟨rfl, rfl, ?_, ?_⟩ <;> decide

/-- C4 amended: when additionally each of the five required names occurs
exactly once among the lowercased column names, the call succeeds and returns
a frame with exactly the five lowercase fields, in required order, all other
provider-supplied fields discarded, and with the provider's row count. -/
theorem claim_C4_success_shape (p : Provider) (market_code start_date end_date : String)
    (raw : DataFrame)
    (hp : p (resolveSymbol market_code) start_date end_date = Except.ok raw)
    (hrows : raw.rows ≠ [])
    (hcount : ∀ col ∈ required_cols, (raw.columns.map lowerStr).count col = 1) :
    ∃ df : DataFrame,
      (download_market_data p market_code start_date end_date).2 = Except.ok df ∧
      df.columns = required_cols ∧
      df.rows.length = raw.rows.length := by
  have hmem : ∀ col ∈ required_cols, col ∈ raw.columns.map lowerStr := by
    intro col hc
    exact List.count_pos_iff.mp (by rw [hcount col hc]; omega)
  have hcolsne : raw.columns ≠ [] := by
    intro h0
    have := hmem "open" (by simp [required_cols])
    rw [h0] at this
    simp at this
  have hne : raw.isEmpty = false := by
    simp [DataFrame.isEmpty, hrows, hcolsne]
  have hall :
      (required_cols.all fun col => raw.lowercaseColumns.columns.contains col) = true := by
    rw [List.all_eq_true]
    intro c hc
    have := hmem c hc
    simpa [DataFrame.lowercaseColumns] using this
  refine ⟨raw.lowercaseColumns.select required_cols, ?_, ?_, ?_⟩
  · rw [download_eq_of_ok p market_code start_date end_date _ _
      (tryBody_eq_ok p (resolveCode market_code) (resolveSymbol market_code)
        start_date end_date raw hp hne hall)]
  · exact columns_select_of_count_one raw hcount
  · rw [DataFrame.length_rows_select]
    rfl

/-- C4 witness: the spec's own scenario — six rows with columns Open, High,
Low, Close, Volume, Dividends — returns a six-row frame with exactly the five
lowercase OHLCV fields, Dividends dropped. -/
theorem claim_C4_witness :
    ∃ df : DataFrame,
      (download_market_data
        (fun _ _ _ => Except.ok (⟨["Open", "High", "Low", "Close", "Volume", "Dividends"],
          [(1, [10, 11, 9, 10, 100, 0]), (2, [10, 11, 9, 10, 100, 0]),
           (3, [10, 11, 9, 10, 100, 0]), (4, [10, 11, 9, 10, 100, 0]),
           (5, [10, 11, 9, 10, 100, 0]), (6, [10, 11, 9, 10, 100, 0])]⟩ : DataFrame))
        "IRFC" "2020-01-01" "2020-01-10").2 = Except.ok df ∧
      df.columns = required_cols ∧
      df.rows.length = 6 :=
  claim_C4_success_shape
    (fun _ _ _ => Except.ok (⟨["Open", "High", "Low", "Close", "Volume", "Dividends"],
      [(1, [10, 11, 9, 10, 100, 0]), (2, [10, 11, 9, 10, 100, 0]),
       (3, [10, 11, 9, 10, 100, 0]), (4, [10, 11, 9, 10, 100, 0]),
       (5, [10, 11, 9, 10, 100, 0]), (6, [10, 11, 9, 10, 100, 0])]⟩ : DataFrame))
    "IRFC" "2020-01-01" "2020-01-10"
    ⟨["Open", "High", "Low", "Close", "Volume", "Dividends"],
      [(1, [10, 11, 9, 10, 100, 0]), (2, [10, 11, 9, 10, 100, 0]),
       (3, [10, 11, 9, 10, 100, 0]), (4, [10, 11, 9, 10, 100, 0]),
       (5, [10, 11, 9, 10, 100, 0]), (6, [10, 11, 9, 10, 100, 0])]⟩
    rfl (by decide) (by decide)

end MultiMarketLoader

namespace MultiMarketLoader

/-- C5 as stated is false: the invariant "exactly the five fields" can be
violated by a successful return.  A provider response carrying both a Close
and a CLOSE column passes both checks, and the returned frame keeps the
duplicate: six columns, "close" twice, instead of exactly the five required
fields. -/
theorem claim_C5_counterexample :
    (download_market_data
        (fun _ _ _ => Except.ok (⟨["Close", "CLOSE", "Open", "High", "Low", "Volume"],
          [(1, [1, 2, 3, 4, 5, 6])]⟩ : DataFrame)) "IRFC" "2020-01-01" "2020-01-10").2 =
      Except.ok (⟨["open", "high", "low", "close", "close", "volume"],
        [(1, [3, 4, 5, 1, 2, 6])]⟩ : DataFrame) ∧
    ["open", "high", "low", "close", "close", "volume"] ≠ required_cols := by
  refine ⟨rfl, by decide⟩

/-- C5 amended: every frame returned by a successful call is non-empty,
whatever the provider response was; and provided each required field name
occurs at most once among the lowercased provider columns, its columns are
exactly the five required lowercase fields; every response of another shape is
rejected with an error before return. -/
theorem claim_C5_returned_shape (p : Provider) (market_code start_date end_date : String)
    (raw df : DataFrame)
    (hp : p (resolveSymbol market_code) start_date end_date = Except.ok raw)
    (hok : (download_market_data p market_code start_date end_date).2 = Except.ok df) :
    df.rows ≠ [] ∧
    ((∀ col ∈ required_cols, (raw.columns.map lowerStr).count col ≤ 1) →
      df.columns = required_cols) := by
  obtain ⟨hne, hall, hdf⟩ := download_ok_inv p market_code start_date end_date raw df hp hok
  have hrowsne : raw.rows ≠ [] := by
    intro h0
    simp [DataFrame.isEmpty, h0] at hne
  subst hdf
  constructor
  · intro h0
    apply hrowsne
    have hlen : (raw.lowercaseColumns.select required_cols).rows.length =
        raw.rows.length := by
      rw [DataFrame.length_rows_select]
      rfl
    rw [h0] at hlen
    simpa using hlen.symm
  · intro hdup
    have hcount1 : ∀ col ∈ required_cols, (raw.columns.map lowerStr).count col = 1 := by
      intro col hc
      have hmemb := (List.all_eq_true.mp hall) col hc
      have hmem : col ∈ raw.lowercaseColumns.columns := by simpa using hmemb
      have hmem2 : col ∈ raw.columns.map lowerStr := hmem
      have hpos := List.count_pos_iff.mpr hmem2
      have hle := hdup col hc
      omega
    exact columns_select_of_count_one raw hcount1

/-- C5 witness: a clean five-column response yields a non-empty frame with
exactly the five required columns. -/
theorem claim_C5_witness :
    (⟨["open", "high", "low", "close", "volume"],
      [(7, [1, 2, 3, 4, 5])]⟩ : DataFrame).rows ≠ [] ∧
    (⟨["open", "high", "low", "close", "volume"],
      [(7, [1, 2, 3, 4, 5])]⟩ : DataFrame).columns = required_cols := by
  have h := claim_C5_returned_shape
    (fun _ _ _ => Except.ok (⟨["Open", "High", "Low", "Close", "Volume"],
      [(7, [1, 2, 3, 4, 5])]⟩ : DataFrame)) "IRFC" "2020-01-01" "2020-01-10"
    ⟨["Open", "High", "Low", "Close", "Volume"], [(7, [1, 2, 3, 4, 5])]⟩
    ⟨["open", "high", "low", "close", "volume"], [(7, [1, 2, 3, 4, 5])]⟩
    rfl rfl
  exact ⟨h.1, h.2 (by decide)⟩

/-- C6: the instrument-description mapping has exactly one entry, keyed by the
default code "IRFC", and its name, country, symbol and description strings are
all non-empty.  The operation is a closed constant of the embedding — it takes
no provider argument and reads no state — so it is pure, deterministic across
calls, performs no external call and has no side effect. -/
theorem claim_C6_market_info :
    get_market_info.length = 1 ∧
    get_market_info.map Prod.fst = ["IRFC"] ∧
    get_market_info.all (fun entry =>
      !(entry.2.name == "") && !(entry.2.country == "") &&
        !(entry.2.symbol == "") && !(entry.2.description == "")) = true := by
  decide

/-- C7 as stated is false: the fetcher performs no sorting or deduplication,
so a successful return can carry dates out of order.  A provider response with
dates 20 then 10 passes both checks, and the returned frame keeps that order,
which is not strictly increasing. -/
theorem claim_C7_counterexample :
    (download_market_data
        (fun _ _ _ => Except.ok (⟨["Open", "High", "Low", "Close", "Volume"],
          [(20, [1, 2, 3, 4, 5]), (10, [6, 7, 8, 9, 10])]⟩ : DataFrame))
        "IRFC" "2020-01-01" "2020-01-10").2 =
      Except.ok (⟨["open", "high", "low", "close", "volume"],
        [(20, [1, 2, 3, 4, 5]), (10, [6, 7, 8, 9, 10])]⟩ : DataFrame) ∧
    (⟨["open", "high", "low", "close", "volume"],
      [(20, [1, 2, 3, 4, 5]), (10, [6, 7, 8, 9, 10])]⟩ : DataFrame).index = [20, 10] ∧
    ¬ List.Chain' (fun a b : Nat => a < b) [20, 10] := by
  refine ⟨rfl, rfl, ?_⟩
  simp [List.chain'_cons, List.chain'_singleton]

/-- C7 amended: a returned frame carries exactly the provider response's dates
in the provider's row order; consequently its date axis is unique and strictly
increasing whenever the provider response's is. -/
theorem claim_C7_index_preservation (p : Provider) (market_code start_date end_date : String)
    (raw df : DataFrame)
    (hp : p (resolveSymbol market_code) start_date end_date = Except.ok raw)
    (hok : (download_market_data p market_code start_date end_date).2 = Except.ok df) :
    df.index = raw.index ∧
    (List.Chain' (fun a b => a < b) raw.index →
      List.Chain' (fun a b => a < b) df.index) := by
  obtain ⟨-, -, hdf⟩ := download_ok_inv p market_code start_date end_date raw df hp hok
  have hidx : df.index = raw.index := by
    rw [hdf, DataFrame.index_select, DataFrame.index_lowercaseColumns]
  exact ⟨hidx, fun h => hidx ▸ h⟩

/-- C7 witness: for a response with increasing dates 3 then 9, the returned
frame carries the same dates and inherits the strict ordering. -/
theorem claim_C7_witness :
    (⟨["open", "high", "low", "close", "volume"],
      [(3, [1, 2, 3, 4, 5]), (9, [1, 2, 3, 4, 5])]⟩ : DataFrame).index =
      (⟨["Open", "High", "Low", "Close", "Volume"],
        [(3, [1, 2, 3, 4, 5]), (9, [1, 2, 3, 4, 5])]⟩ : DataFrame).index ∧
    (List.Chain' (fun a b => a < b)
        (⟨["Open", "High", "Low", "Close", "Volume"],
          [(3, [1, 2, 3, 4, 5]), (9, [1, 2, 3, 4, 5])]⟩ : DataFrame).index →
      List.Chain' (fun a b => a < b)
        (⟨["open", "high", "low", "close", "volume"],
          [(3, [1, 2, 3, 4, 5]), (9, [1, 2, 3, 4, 5])]⟩ : DataFrame).index) :=
  claim_C7_index_preservation
    (fun _ _ _ => Except.ok (⟨["Open", "High", "Low", "Close", "Volume"],
      [(3, [1, 2, 3, 4, 5]), (9, [1, 2, 3, 4, 5])]⟩ : DataFrame))
    "IRFC" "2020-01-01" "2020-01-10"
    ⟨["Open", "High", "Low", "Close", "Volume"],
      [(3, [1, 2, 3, 4, 5]), (9, [1, 2, 3, 4, 5])]⟩
    ⟨["open", "high", "low", "close", "volume"],
      [(3, [1, 2, 3, 4, 5]), (9, [1, 2, 3, 4, 5])]⟩
    rfl rfl

end MultiMarketLoader

namespace MultiMarketLoader

/-- C8: failure propagation.  First, an error raised by the provider call
surfaces as a provider error carrying the very same message.  Second, whatever
error the try-block raised is the error the caller receives — unchanged — and
the last printed line is the diagnostic naming that error's message.  Third,
the call consults the provider only at the single resolved symbol and date
range: two providers agreeing there behave identically, so nothing is retried
or recovered. -/
theorem claim_C8_error_propagation (p : Provider)
    (market_code start_date end_date : String) :
    (∀ m, p (resolveSymbol market_code) start_date end_date = Except.error m →
      (download_market_data p market_code start_date end_date).2 =
        Except.error (FetchError.provider m)) ∧
    (∀ err, (tryBody p (resolveCode market_code) (resolveSymbol market_code)
        start_date end_date).2 = Except.error err →
      (download_market_data p market_code start_date end_date).2 = Except.error err ∧
      (download_market_data p market_code start_date end_date).1.getLast? =
        some ("❌ Failed to download Indian market data: " ++ err.message)) ∧
    (∀ q : Provider, q (resolveSymbol market_code) start_date end_date =
        p (resolveSymbol market_code) start_date end_date →
      download_market_data q market_code start_date end_date =
        download_market_data p market_code start_date end_date) := by
  refine ⟨?_, ?_, ?_⟩
  · intro m hm
    rw [download_eq_of_error p market_code start_date end_date _ _
      (tryBody_eq_provider_error p (resolveCode market_code) (resolveSymbol market_code)
        start_date end_date m hm)]
  · intro err herr
    rcases h2 : tryBody p (resolveCode market_code) (resolveSymbol market_code)
        start_date end_date with ⟨log, out⟩
    rw [h2] at herr
    simp only at herr
    rw [herr] at h2
    rw [download_eq_of_error p market_code start_date end_date log err h2]
    refine ⟨rfl, ?_⟩
    rw [← List.append_assoc]
    exact List.getLast?_concat _
  · intro q hq
    have ht : tryBody q (resolveCode market_code) (resolveSymbol market_code)
        start_date end_date =
        tryBody p (resolveCode market_code) (resolveSymbol market_code)
          start_date end_date := by
      simp only [tryBody, hq]
    simp only [download_market_data, ht]

/-- C8 witness: against a provider stub failing with "boom", the caller
receives the provider error with that very message, and the last printed line
is the diagnostic naming it. -/
theorem claim_C8_witness :
    (download_market_data (fun _ _ _ => Except.error "boom") "IRFC"
        "2020-01-01" "2020-01-10").2 = Except.error (FetchError.provider "boom") ∧
    (download_market_data (fun _ _ _ => Except.error "boom") "IRFC"
        "2020-01-01" "2020-01-10").1.getLast? =
      some "❌ Failed to download Indian market data: boom" := by
  have h := claim_C8_error_propagation (fun _ _ _ => Except.error "boom") "IRFC"
    "2020-01-01" "2020-01-10"
  have h1 := h.1 "boom" rfl
  have h2 := (h.2.1 (FetchError.provider "boom") rfl).2
  exact ⟨h1, h2.trans (by rfl)⟩

/-- C9: for every provider behaviour and every pair of dates, the convenience
entry point returns the very same result — the same frame on success and the
same error on failure — as the general entry point called with the code
"IRFC"; the two entry points are extensionally equal in their outcome. -/
theorem claim_C9_delegation (p : Provider) (start_date end_date : String) :
    (download_indian_market p start_date end_date).2 =
      (download_market_data p "IRFC" start_date end_date).2 := rfl

/-- C10: omitting every optional argument is the same as passing the code
"IRFC" and the dates "2005-01-01" and "2022-03-31", and the convenience entry
point shares the same two date defaults. -/
theorem claim_C10_defaults (p : Provider) :
    download_market_data_noargs p =
      download_market_data p "IRFC" "2005-01-01" "2022-03-31" ∧
    download_indian_market_noargs p =
      download_indian_market p "2005-01-01" "2022-03-31" ∧
    default_market_code = "IRFC" ∧
    default_start_date = "2005-01-01" ∧
    default_end_date = "2022-03-31" :=
  ⟨rfl, rfl, rfl, rfl, rfl⟩

end MultiMarketLoader
